import Mathlib

/-!
Verification of the LoanAgent backend core (session state machine, free-text
amount/tenure parsing, EMI calculator, underwriting rules, KYC stub) against
its natural-language specification.

The Python source under `backend/` is shallowly embedded below:
* machine `Decimal` arithmetic is modelled by exact rationals with the final
  `quantize(Decimal("0.01"), ROUND_HALF_UP)` step modelled by `q2` (the
  source sets a 28-significant-digit context for intermediates; intermediates
  are modelled exactly, which the spec itself demands of the calculation);
* Python strings are `String`/`List Char` (ASCII character classes);
* the `re` patterns used by the agent are modelled by executable scanners
  with the same leftmost-match/backtracking behaviour as the source regexes;
* the global `SESSIONS` dict is explicit state `String → Option Session`;
* human-readable decoration of reply texts (currency symbols, emoji, digit
  grouping, quoting) is elided; reply roles, reply structure and all control
  flow follow the source exactly;
* the sanction worker (`workers/sanction.py`) is not part of the provided
  sources; its artifact reference is modelled from the spec (see
  `generate_sanction`).
-/

namespace LoanAgent

/-! ## Character helpers (Python `str` semantics, ASCII model) -/

def pyIsSpace (c : Char) : Bool :=
  c = ' ' || c = '\t' || c = '\n' || c = '\x0d' || c = '\x0c' || c = '\x0b'

def pyIsDigit (c : Char) : Bool := '0' ≤ c && c ≤ '9'

def lcChar (c : Char) : Char :=
  if 'A' ≤ c && c ≤ 'Z' then Char.ofNat (c.toNat + 32) else c

def isWordChar (c : Char) : Bool :=
  pyIsDigit c || ('a' ≤ c && c ≤ 'z') || ('A' ≤ c && c ≤ 'Z') || c = '_'

/-- Python `str.strip()` (whitespace from both ends). -/
def pyStrip (s : List Char) : List Char :=
  ((s.dropWhile pyIsSpace).reverse.dropWhile pyIsSpace).reverse

def digitVal (c : Char) : ℕ := c.toNat - 48

def digitsVal (l : List Char) : ℕ := l.foldl (fun a c => 10 * a + digitVal c) 0

/-- Case-insensitive match of a (lowercase) pattern against the head of `s`;
returns the matched original characters and the remainder. -/
def matchWordCI : List Char → List Char → Option (List Char × List Char)
  | [], s => some ([], s)
  | _ :: _, [] => none
  | p :: ps, c :: cs =>
    if lcChar c = p then
      (matchWordCI ps cs).map (fun m => (c :: m.1, m.2))
    else none

/-! ## The amount/tenure parser (`parse_amount_and_tenure`, master_agent.py)

Amount regex: `(?:₹\s*)?(\d{1,3}(?:,\d{3})+|\d+)`, leftmost match, commas
stripped.  The optional currency marker never changes group 1, which always
starts at the first digit of the text; the grouped alternative succeeds
exactly when the leading digit run has length ≤ 3 and is followed by at
least one `,ddd` block (the regex engine's backtracking over `\d{1,3}`
cannot succeed otherwise, since the character after a shorter digit prefix
would be a digit, not a comma). -/

/-- Greedily consume `(,\d{3})*` blocks, returning the digits. -/
def commaBlocks : List Char → List Char
  | ',' :: a :: b :: c :: rest =>
    if pyIsDigit a && pyIsDigit b && pyIsDigit c then
      a :: b :: c :: commaBlocks rest
    else []
  | _ => []

/-- Does `s` start with one `,ddd` block? -/
def hasCommaBlock : List Char → Bool
  | ',' :: a :: b :: c :: _ => pyIsDigit a && pyIsDigit b && pyIsDigit c
  | _ => false

/-- Value of the amount match at a position starting with a digit. -/
def amountAt (s : List Char) : ℕ :=
  let run := s.takeWhile pyIsDigit
  let rest := s.dropWhile pyIsDigit
  if run.length ≤ 3 && hasCommaBlock rest then
    digitsVal (run ++ commaBlocks rest)
  else digitsVal run

/-- Leftmost amount match: scan to the first digit. -/
def findAmount : List Char → Option ℕ
  | [] => none
  | c :: cs => if pyIsDigit c then some (amountAt (c :: cs)) else findAmount cs

/-! Tenure regex: `(\d{1,2})\s*(months?|yrs?|years?)` with `re.IGNORECASE`,
leftmost match; greedy `\d{1,2}` (two digits tried before one), greedy `\s*`
(the unit starts with a letter, so maximal whitespace consumption is exact),
alternation tried in source order with greedy optional `s`. -/

/-- Append the greedy optional `s` of `months?` / `yrs?` / `years?`. -/
def optionalS (m : List Char) (rest : List Char) : List Char :=
  match rest with
  | c :: _ => if lcChar c = 's' then m ++ [c] else m
  | [] => m

/-- Match the unit alternation `months?|yrs?|years?` at the head of `s`,
returning the matched characters (group 2 of the source regex). -/
def matchUnit (s : List Char) : Option (List Char) :=
  match matchWordCI ['m', 'o', 'n', 't', 'h'] s with
  | some m => some (optionalS m.1 m.2)
  | none =>
    match matchWordCI ['y', 'r'] s with
    | some m => some (optionalS m.1 m.2)
    | none =>
      match matchWordCI ['y', 'e', 'a', 'r'] s with
      | some m => some (optionalS m.1 m.2)
      | none => none

/-- After the digits of a candidate tenure match: `\s*` then the unit. -/
def unitAfterDigits (t : ℕ) (s : List Char) : Option (ℕ × List Char) :=
  (matchUnit (s.dropWhile pyIsSpace)).map (fun u => (t, u))

/-- Attempt the tenure pattern at one position (with `\d{1,2}` backtracking:
two digits first, then one). -/
def tenureMatchAt : List Char → Option (ℕ × List Char)
  | [] => none
  | c :: rest =>
    if pyIsDigit c then
      match rest with
      | c2 :: rest2 =>
        if pyIsDigit c2 then
          match unitAfterDigits (10 * digitVal c + digitVal c2) rest2 with
          | some r => some r
          | none => unitAfterDigits (digitVal c) rest
        else unitAfterDigits (digitVal c) rest
      | [] => none
    else none

/-- Leftmost tenure match. -/
def findTenure : List Char → Option (ℕ × List Char)
  | [] => none
  | c :: cs =>
    match tenureMatchAt (c :: cs) with
    | some r => some r
    | none => findTenure cs

/-- `"year" in u.lower()`: does `u` contain the substring `year`
(case-insensitively)? -/
def startsYear : List Char → Bool
  | a :: b :: c :: d :: _ =>
    lcChar a = 'y' && lcChar b = 'e' && lcChar c = 'a' && lcChar d = 'r'
  | _ => false

def containsYear : List Char → Bool
  | [] => false
  | c :: cs => startsYear (c :: cs) || containsYear cs

/-- `tenure = t * 12 if "year" in tenure_match.group(2).lower() else t` -/
def tenureConv (p : ℕ × List Char) : ℕ :=
  if containsYear p.2 then p.1 * 12 else p.1

/-- `parse_amount_and_tenure` over a character list. -/
def parseCore (l : List Char) : Option ℕ × Option ℕ :=
  (findAmount l, (findTenure l).map tenureConv)

/-- `parse_amount_and_tenure(text)` from master_agent.py. -/
def parse_amount_and_tenure (text : String) : Option ℕ × Option ℕ :=
  parseCore text.data

/-! ## The intent regexes of `master_chat` -/

/-- A word of the alternation, matched at the head of `s`, with a right word
boundary (`\b`) after it. -/
def wordAt (w s : List Char) : Bool :=
  match matchWordCI w s with
  | some (_, []) => true
  | some (_, c :: _) => !(isWordChar c)
  | none => false

def kycAt (s : List Char) : Bool :=
  wordAt ['k', 'y', 'c'] s || wordAt ['v', 'e', 'r', 'i', 'f', 'y'] s ||
  wordAt ['p', 'h', 'o', 'n', 'e'] s ||
  wordAt ['a', 'd', 'd', 'r', 'e', 's', 's'] s

/-- Scan for `\bkyc\b|\bverify\b|\bphone\b|\baddress\b` (IGNORECASE); the
Boolean argument records whether the preceding character is a word character
(the left `\b`). -/
def kycSearch : Bool → List Char → Bool
  | _, [] => false
  | prevWord, c :: cs => (!prevWord && kycAt (c :: cs)) || kycSearch (isWordChar c) cs

def kycRegex (s : List Char) : Bool := kycSearch false s

/-- Case-insensitive substring occurrence. -/
def containsCI (w : List Char) : List Char → Bool
  | [] => (matchWordCI w []).isSome
  | c :: cs => (matchWordCI w (c :: cs)).isSome || containsCI w cs

/-- `salary|salary slip|upload` (IGNORECASE): as a Boolean search this is
containment of `salary` or `upload` (the middle alternative is subsumed by
the first). -/
def salaryRegex (s : List Char) : Bool :=
  containsCI ['s', 'a', 'l', 'a', 'r', 'y'] s ||
  containsCI ['u', 'p', 'l', 'o', 'a', 'd'] s

/-! ## EMI calculator (`compute_emi`, workers/underwriting.py) -/

/-- `Decimal.quantize(Decimal("0.01"), rounding=ROUND_HALF_UP)`: rounding to
2 fractional digits with ties away from zero. -/
def q2 (x : ℚ) : ℚ :=
  if 0 ≤ x then ((⌊100 * x + 1 / 2⌋ : ℤ) : ℚ) / 100
  else -(((⌊100 * (-x) + 1 / 2⌋ : ℤ) : ℚ) / 100)

/-- `compute_emi(P, annual_rate, months)`: the monthly rate is
`annual_rate / 12 / 100`; zero-rate branch is straight division, otherwise
the amortization formula; final rounding to 2 digits half-up. -/
def compute_emi (P annual_rate : ℚ) (months : ℕ) : ℚ :=
  if annual_rate / 12 / 100 = 0 then q2 (P / (months : ℚ))
  else
    q2 (P * (annual_rate / 12 / 100) * (1 + annual_rate / 12 / 100) ^ months /
        ((1 + annual_rate / 12 / 100) ^ months - 1))

/-! ## Data model -/

/-- A customer record from `customers.json` (read-only master data).
`salary` flattens `customer.get("salary_info", {}).get("salary", …)`:
it is `some v` exactly when `salary_info.salary` is present with value `v`. -/
structure Customer where
  id : String
  name : String
  phone : Option String
  address : Option String
  pre_approved_limit : ℤ
  credit_score : Option ℤ
  salary : Option ℚ
deriving DecidableEq

/-- The result of `verify_kyc` (workers/verification.py). -/
structure KycResult where
  verified : Bool
  phone : Option String
  address : String
deriving DecidableEq

/-- `verify_kyc(customer)`: `verified = bool(phone)` (a phone value that is
present and non-empty); the provided chat message is never consulted. -/
def verify_kyc (c : Customer) : KycResult :=
  { verified := match c.phone with
      | none => false
      | some p => p != ""
    phone := c.phone
    address := c.address.getD "Address not available in demo" }

/-- `get_offers_for_customer` (workers/sales.py): always exactly two offers
derived from the pre-approved limit (text decoration elided). -/
def get_offers_for_customer (c : Customer) : List String :=
  ["Offer A - up to " ++ toString c.pre_approved_limit ++
     " at 13.5% p.a. (instant approval within pre-approved limit).",
   "Offer B - up to " ++ toString (c.pre_approved_limit * 2) ++
     " at 14.5% p.a. (salary verification required if exceeding pre-approved limit)."]

/-- `get_credit_score` (mock_services/credit.py): 0 for an unknown id, else
`customer.get("credit_score", 0)`; it reads the same customer map. -/
def get_credit_score (customers : String → Option Customer) (cid : String) : ℤ :=
  match customers cid with
  | none => 0
  | some c => c.credit_score.getD 0

/-! ## Underwriting engine (`evaluate_loan`, workers/underwriting.py) -/

inductive LoanDecision where
  | Reject (reason : String)
  | ReqDoc (reason : String)
  | Approve (approved_amount : ℤ) (emi : ℚ) (rate : ℚ)
deriving DecidableEq

/-- Rule 3 of `evaluate_loan` (the document / salary-verification branch):
`monthly_salary` is set only when a file path is present (and truthy); a
falsy salary (absent file, or an extracted salary of 0) re-prompts for the
document; otherwise the 14.5% EMI is checked against half the salary. -/
def docSalaryBranch (customer : Customer) (requested_amount : ℤ) (tenure_months : ℕ)
    (file_path : Option String) : LoanDecision :=
  let monthly_salary : Option ℚ :=
    match file_path with
    | some p => if p = "" then none else some (customer.salary.getD 65000)
    | none => none
  match monthly_salary with
  | none => .ReqDoc "Please upload salary slip for verification."
  | some s =>
    if s = 0 then .ReqDoc "Please upload salary slip for verification."
    else
      let emi := compute_emi (requested_amount : ℚ) (14.5 : ℚ) tenure_months
      if emi ≤ s * (1 / 2 : ℚ) then
        .Approve requested_amount emi (14.5 : ℚ)
      else
        .Reject "Rejected: EMI exceeds 50% of salary."

/-- `evaluate_loan(customer, requested_amount, tenure_months, credit_score,
fileId, file_path)`: the four rules in source order, first match wins.  The
source compares `Decimal(requested_amount)` with `Decimal(pre_approved_limit)`
and with twice it; both are exact conversions of integers, so the comparisons
are the integer comparisons written here. -/
def evaluate_loan (customer : Customer) (requested_amount : ℤ) (tenure_months : ℕ)
    (credit_score : ℤ) (file_path : Option String) : LoanDecision :=
  if credit_score < 700 then
    .Reject ("Rejected: credit score " ++ toString credit_score ++ " below threshold 700.")
  else if requested_amount ≤ customer.pre_approved_limit then
    .Approve requested_amount
      (compute_emi (requested_amount : ℚ) (13.5 : ℚ) tenure_months) (13.5 : ℚ)
  else if requested_amount ≤ customer.pre_approved_limit * 2 then
    docSalaryBranch customer requested_amount tenure_months file_path
  else
    .Reject "Rejected: requested amount exceeds 2x pre-approved limit."

/-! ## Session state machine (`master_chat`, master_agent.py) -/

/-- A `SESSIONS` entry: `{"customerId": …, "stage": …}`. -/
structure Session where
  customerId : String
  stage : String
deriving DecidableEq

structure Reply where
  role : String
  text : String
deriving DecidableEq

structure ChatRequest where
  sessionId : String
  customerId : String
  message : String
  fileId : Option String
deriving DecidableEq

/-- The external collaborators: the customer master data (shared by the
master agent and the mock credit bureau) and `UPLOAD_MAP`. -/
structure Env where
  customers : String → Option Customer
  uploads : String → Option String

/-- One chat turn's outcome: the reply list, the optional sanction artifact
link, and the updated `SESSIONS` store. -/
structure ChatResult where
  replies : List Reply
  sanctionUrl : Option String
  sessions : String → Option Session

/-- Store update: `SESSIONS[sid] = s` (all other keys untouched). -/
def sessionPut (sessions : String → Option Session) (sid : String) (s : Session) :
    String → Option Session :=
  fun k => if k = sid then some s else sessions k

/-- `UPLOAD_MAP.get(req.fileId) if req.fileId else None` (an empty file id is
falsy). -/
def filePathOf (env : Env) (fid : Option String) : Option String :=
  match fid with
  | none => none
  | some f => if f = "" then none else env.uploads f

/-- Python truthiness of the parsed optional numbers (`None` and `0` falsy). -/
def truthyNum : Option ℕ → Bool
  | none => false
  | some a => a != 0

def notFoundText (cid : String) : String :=
  "Customer ID " ++ cid ++ " not found. Please check and try again."

def greetText (c : Customer) : String :=
  "Hi " ++ c.name ++ " You are pre-approved for a personal loan up to " ++
    toString c.pre_approved_limit ++ "."

def tenurePromptText : String :=
  "Tell me the loan amount and tenure you prefer (e.g., 150000 for 24 months)."

def uploadPromptText : String :=
  "Please upload your salary slip using the upload button, then type Attached."

def fallbackText (c : Customer) : String :=
  "Hi " ++ c.name ++ ", I can help you get an instant personal loan. Please tell me the amount and tenure."

/-- The greeting turn's replies: master greeting, the two sales offers, and
the amount/tenure prompt. -/
def greetingReplies (c : Customer) : List Reply :=
  ⟨"master", greetText c⟩ ::
    ((get_offers_for_customer c).map (fun o => (⟨"sales", o⟩ : Reply)) ++
      [⟨"master", tenurePromptText⟩])

def approveText (amt : ℤ) (t : ℕ) : String :=
  "Loan approved for " ++ toString amt ++ " for " ++ toString t ++ " months."

/-- Modelled from the spec: `generateSanctionArtifact(customer, amount,
tenureMonths, rate, emi) -> artifactReference`.  The sanction worker
(`workers/sanction.py`) is not among the provided sources; the artifact
reference is modelled as an opaque deterministic name. -/
def generate_sanction (c : Customer) (amount : ℤ) (tenure_months : ℕ)
    (rate emi : ℚ) : String :=
  "sanction_" ++ c.id ++ "_" ++ toString amount ++ "_" ++ toString tenure_months ++ ".pdf"

/-- The underwriting step of `master_chat` (section 4 of the handler):
dispatch on the decision status. -/
def underwritingTurn (env : Env) (sessions : String → Option Session)
    (req : ChatRequest) (customer : Customer) (a t : ℕ) : ChatResult :=
  let session := (sessions req.sessionId).getD ⟨req.customerId, "INIT"⟩
  match evaluate_loan customer (a : ℤ) t (get_credit_score env.customers req.customerId)
      (filePathOf env req.fileId) with
  | .Reject reason =>
    ⟨[⟨"underwriting", reason⟩], none,
      sessionPut sessions req.sessionId { session with stage := "REJECTED" }⟩
  | .ReqDoc reason =>
    ⟨[⟨"underwriting", reason⟩], none,
      sessionPut sessions req.sessionId { session with stage := "DOC_PENDING" }⟩
  | .Approve amt emi rate =>
    ⟨[⟨"underwriting", approveText amt t⟩,
      ⟨"sanction", "Sanction letter generated successfully."⟩],
      some ("/api/sanction/" ++ generate_sanction customer amt t rate emi),
      sessionPut sessions req.sessionId { session with stage := "APPROVED" }⟩

/-- `master_chat` for a known customer: strip the message; `setdefault` the
session (created at stage INIT); then the greeting, KYC, document, and
underwriting sections in source order, falling through to the guidance
reply. -/
def master_chat_known (env : Env) (sessions : String → Option Session)
    (req : ChatRequest) (customer : Customer) : ChatResult :=
  let text := pyStrip req.message.data
  let session := (sessions req.sessionId).getD ⟨req.customerId, "INIT"⟩
  if text = [] then
    ⟨greetingReplies customer, none,
      sessionPut sessions req.sessionId { session with stage := "SALES" }⟩
  else if kycRegex text then
    if (verify_kyc customer).verified then
      ⟨[⟨"verification", "KYC verified successfully."⟩], none,
        sessionPut sessions req.sessionId { session with stage := "KYC_DONE" }⟩
    else
      ⟨[⟨"verification", "KYC mismatch detected."⟩], none,
        sessionPut sessions req.sessionId session⟩
  else if salaryRegex text then
    ⟨[⟨"master", uploadPromptText⟩], none,
      sessionPut sessions req.sessionId { session with stage := "DOC_PENDING" }⟩
  else if truthyNum (parseCore text).1 && truthyNum (parseCore text).2 then
    underwritingTurn env sessions req customer ((parseCore text).1.getD 0)
      ((parseCore text).2.getD 0)
  else
    ⟨[⟨"master", fallbackText customer⟩], none,
      sessionPut sessions req.sessionId session⟩

/-- `master_chat(req)`: an unknown customer id short-circuits (before the
session `setdefault`) with a single system reply; otherwise the known-customer
flow runs. -/
def master_chat (env : Env) (sessions : String → Option Session)
    (req : ChatRequest) : ChatResult :=
  match env.customers req.customerId with
  | none => ⟨[⟨"system", notFoundText req.customerId⟩], none, sessions⟩
  | some customer => master_chat_known env sessions req customer

/-! ## Spec-side definition for the KYC claim (refinement comparison)

The spec's §4.4 contract, written from the spec's words, to be compared
against `verify_kyc`. -/

/-- Strip all non-digit characters. -/
def stripNonDigits (s : String) : String := ⟨s.data.filter pyIsDigit⟩

/-- Follows the spec's words: normalize both the stored phone and the
provided value by stripping non-digits, then compare for exact equality;
empty normalized input never verifies. -/
def specVerify (c : Customer) (provided : String) : Bool :=
  !(stripNonDigits provided).isEmpty &&
    stripNonDigits provided = stripNonDigits (c.phone.getD "")

/-! ## Abstractions used by the EMI monotonicity proofs -/

/-- The geometric sum `1 + v + … + v^(n-1)`. -/
def geomS (v : ℚ) (n : ℕ) : ℚ := Finset.sum (Finset.range n) (fun k => v ^ k)

/-- The amortization quotient in closed form: for a monthly factor `v = 1+r`
the pre-rounding EMI `P·r·vⁿ/(vⁿ−1)` equals `P·vⁿ/(1+v+…+v^(n-1))`, a form
that also covers the zero-rate branch (`v = 1`). -/
def emiCore (P v : ℚ) (n : ℕ) : ℚ := P * v ^ n / geomS v n

/-! ## Concrete fixtures used by witnesses and counterexamples -/

def cGood : Customer :=
  ⟨"C001", "Asha", some "9876543210", none, 200000, some 750, some 80000⟩

def env0 : Env := ⟨fun cid => if cid = "C001" then some cGood else none, fun _ => none⟩

def envUnknown : Env := ⟨fun _ => none, fun _ => none⟩

def noSessions : String → Option Session := fun _ => none

def sessSales : String → Option Session :=
  fun k => if k = "s1" then some ⟨"C001", "SALES"⟩ else none

def sessApproved : String → Option Session :=
  fun k => if k = "s1" then some ⟨"C001", "APPROVED"⟩ else none

def sessUnderwriting : String → Option Session :=
  fun k => if k = "s1" then some ⟨"C001", "UNDERWRITING"⟩ else none

def approveReq : ChatRequest := ⟨"s1", "C001", "150000 for 12 months", none⟩

/-! ## Branch lemmas for `master_chat` -/

lemma sessionPut_same (sessions : String → Option Session) (sid : String) (s : Session) :
    sessionPut sessions sid s sid = some s := by
  simp [sessionPut]

lemma sessionPut_other (sessions : String → Option Session) (sid : String) (s : Session)
    (k : String) (h : k ≠ sid) : sessionPut sessions sid s k = sessions k := by
  simp [sessionPut, h]

lemma master_chat_greeting (env : Env) (sessions : String → Option Session)
    (req : ChatRequest) (c : Customer)
    (hc : env.customers req.customerId = some c)
    (h1 : pyStrip req.message.data = []) :
    master_chat env sessions req =
      ⟨greetingReplies c, none,
        sessionPut sessions req.sessionId
          ⟨((sessions req.sessionId).getD ⟨req.customerId, "INIT"⟩).customerId, "SALES"⟩⟩ := by
  unfold master_chat master_chat_known
  rw [hc]
  simp [h1]

lemma master_chat_kyc_hit (env : Env) (sessions : String → Option Session)
    (req : ChatRequest) (c : Customer)
    (hc : env.customers req.customerId = some c)
    (h1 : pyStrip req.message.data ≠ [])
    (h2 : kycRegex (pyStrip req.message.data) = true) :
    master_chat env sessions req =
      (if (verify_kyc c).verified then
        ⟨[⟨"verification", "KYC verified successfully."⟩], none,
          sessionPut sessions req.sessionId
            ⟨((sessions req.sessionId).getD ⟨req.customerId, "INIT"⟩).customerId, "KYC_DONE"⟩⟩
      else
        ⟨[⟨"verification", "KYC mismatch detected."⟩], none,
          sessionPut sessions req.sessionId
            ((sessions req.sessionId).getD ⟨req.customerId, "INIT"⟩)⟩) := by
  unfold master_chat master_chat_known
  rw [hc]
  simp [h1, h2]

lemma master_chat_salary_hit (env : Env) (sessions : String → Option Session)
    (req : ChatRequest) (c : Customer)
    (hc : env.customers req.customerId = some c)
    (h1 : pyStrip req.message.data ≠ [])
    (h2 : kycRegex (pyStrip req.message.data) = false)
    (h3 : salaryRegex (pyStrip req.message.data) = true) :
    master_chat env sessions req =
      ⟨[⟨"master", uploadPromptText⟩], none,
        sessionPut sessions req.sessionId
          ⟨((sessions req.sessionId).getD ⟨req.customerId, "INIT"⟩).customerId, "DOC_PENDING"⟩⟩ := by
  unfold master_chat master_chat_known
  rw [hc]
  simp [h1, h2, h3]

lemma master_chat_uw (env : Env) (sessions : String → Option Session)
    (req : ChatRequest) (c : Customer)
    (hc : env.customers req.customerId = some c)
    (h1 : pyStrip req.message.data ≠ [])
    (h2 : kycRegex (pyStrip req.message.data) = false)
    (h3 : salaryRegex (pyStrip req.message.data) = false)
    (h4 : (truthyNum (parseCore (pyStrip req.message.data)).1 &&
           truthyNum (parseCore (pyStrip req.message.data)).2) = true) :
    master_chat env sessions req =
      underwritingTurn env sessions req c
        ((parseCore (pyStrip req.message.data)).1.getD 0)
        ((parseCore (pyStrip req.message.data)).2.getD 0) := by
  unfold master_chat master_chat_known
  rw [hc]
  simp [h1, h2, h3, h4]

lemma master_chat_fallthrough (env : Env) (sessions : String → Option Session)
    (req : ChatRequest) (c : Customer)
    (hc : env.customers req.customerId = some c)
    (h1 : pyStrip req.message.data ≠ [])
    (h2 : kycRegex (pyStrip req.message.data) = false)
    (h3 : salaryRegex (pyStrip req.message.data) = false)
    (h4 : (truthyNum (parseCore (pyStrip req.message.data)).1 &&
           truthyNum (parseCore (pyStrip req.message.data)).2) = false) :
    master_chat env sessions req =
      ⟨[⟨"master", fallbackText c⟩], none,
        sessionPut sessions req.sessionId
          ((sessions req.sessionId).getD ⟨req.customerId, "INIT"⟩)⟩ := by
  unfold master_chat master_chat_known
  rw [hc]
  simp [h1, h2, h3, h4]

lemma underwritingTurn_reject (env : Env) (sessions : String → Option Session)
    (req : ChatRequest) (c : Customer) (a t : ℕ) (reason : String)
    (hd : evaluate_loan c (a : ℤ) t (get_credit_score env.customers req.customerId)
            (filePathOf env req.fileId) = .Reject reason) :
    underwritingTurn env sessions req c a t =
      ⟨[⟨"underwriting", reason⟩], none,
        sessionPut sessions req.sessionId
          ⟨((sessions req.sessionId).getD ⟨req.customerId, "INIT"⟩).customerId, "REJECTED"⟩⟩ := by
  unfold underwritingTurn
  rw [hd]

lemma underwritingTurn_reqdoc (env : Env) (sessions : String → Option Session)
    (req : ChatRequest) (c : Customer) (a t : ℕ) (reason : String)
    (hd : evaluate_loan c (a : ℤ) t (get_credit_score env.customers req.customerId)
            (filePathOf env req.fileId) = .ReqDoc reason) :
    underwritingTurn env sessions req c a t =
      ⟨[⟨"underwriting", reason⟩], none,
        sessionPut sessions req.sessionId
          ⟨((sessions req.sessionId).getD ⟨req.customerId, "INIT"⟩).customerId, "DOC_PENDING"⟩⟩ := by
  unfold underwritingTurn
  rw [hd]

lemma underwritingTurn_approve (env : Env) (sessions : String → Option Session)
    (req : ChatRequest) (c : Customer) (a t : ℕ) (amt : ℤ) (emi rate : ℚ)
    (hd : evaluate_loan c (a : ℤ) t (get_credit_score env.customers req.customerId)
            (filePathOf env req.fileId) = .Approve amt emi rate) :
    underwritingTurn env sessions req c a t =
      ⟨[⟨"underwriting", approveText amt t⟩,
        ⟨"sanction", "Sanction letter generated successfully."⟩],
        some ("/api/sanction/" ++ generate_sanction c amt t rate emi),
        sessionPut sessions req.sessionId
          ⟨((sessions req.sessionId).getD ⟨req.customerId, "INIT"⟩).customerId, "APPROVED"⟩⟩ := by
  unfold underwritingTurn
  rw [hd]

/-! ## Claim C1 — underwriting rule order -/

/-- C1: `evaluate_loan` applies the underwriting rules in this exact order,
first match winning: credit score below 700 rejects; otherwise an amount
within the pre-approved limit approves at 13.5% with
`compute_emi(amount, 13.5, tenure)`; otherwise an amount within twice the
limit enters the document/salary branch; otherwise (in particular at
`2·limit + 1`) the request is rejected regardless of salary or document. -/
theorem evaluate_loan_rule_order (c : Customer) (req : ℤ) (t : ℕ) (score : ℤ)
    (fp : Option String) :
    (score < 700 → evaluate_loan c req t score fp =
      .Reject ("Rejected: credit score " ++ toString score ++ " below threshold 700.")) ∧
    (700 ≤ score → req ≤ c.pre_approved_limit → evaluate_loan c req t score fp =
      .Approve req (compute_emi (req : ℚ) (13.5 : ℚ) t) (13.5 : ℚ)) ∧
    (700 ≤ score → c.pre_approved_limit < req → req ≤ c.pre_approved_limit * 2 →
      evaluate_loan c req t score fp = docSalaryBranch c req t fp) ∧
    (700 ≤ score → 0 ≤ c.pre_approved_limit → c.pre_approved_limit * 2 < req →
      evaluate_loan c req t score fp =
        .Reject "Rejected: requested amount exceeds 2x pre-approved limit.") ∧
    (700 ≤ score → 0 ≤ c.pre_approved_limit → req = 2 * c.pre_approved_limit + 1 →
      evaluate_loan c req t score fp =
        .Reject "Rejected: requested amount exceeds 2x pre-approved limit.") := by
  refine ⟨?_, ?_, ?_, ?_, ?_⟩
  · intro h
    unfold evaluate_loan
    rw [if_pos h]
  · intro h h2
    unfold evaluate_loan
    rw [if_neg (by omega), if_pos h2]
  · intro h h2 h3
    unfold evaluate_loan
    rw [if_neg (by omega), if_neg (by omega), if_pos h3]
  · intro h h0 h2
    unfold evaluate_loan
    rw [if_neg (by omega), if_neg (by omega), if_neg (by omega)]
  · intro h h0 h2
    unfold evaluate_loan
    rw [if_neg (by omega), if_neg (by omega), if_neg (by omega)]

/-- Witness for C1 at a concrete customer and request (rule 2 fires). -/
theorem evaluate_loan_rule_order_witness :
    evaluate_loan cGood 150000 12 750 none =
      .Approve 150000 (compute_emi (150000 : ℚ) (13.5 : ℚ) 12) (13.5 : ℚ) :=
  (evaluate_loan_rule_order cGood 150000 12 750 none).2.1 (by norm_num) (by decide)

/-! ## Claim C4 — identity verification -/

/-- C4 counterexample: `verify_kyc` never consults the provided value.  For
the fixture customer it verifies although the claim's spec-side predicate
(`specVerify`, stripped-digit comparison) is false for a mismatching
provided phone. -/
theorem verify_kyc_ignores_provided_counterexample :
    (verify_kyc cGood).verified = true ∧ specVerify cGood "1111111111" = false := by
  decide

/-- C4 amended: `verify_kyc` returns `verified = true` iff the customer's
stored phone field is present and non-empty; the provided value is never
compared (the handler does not even pass one). -/
theorem verify_kyc_phone_truthy (c : Customer) :
    (verify_kyc c).verified = true ↔ ∃ p, c.phone = some p ∧ p ≠ "" := by
  cases hp : c.phone with
  | none => simp [verify_kyc, hp]
  | some p => simp [verify_kyc, hp]

/-- Witness for C4's amended theorem at the fixture customer. -/
theorem verify_kyc_phone_truthy_witness : (verify_kyc cGood).verified = true :=
  (verify_kyc_phone_truthy cGood).mpr ⟨"9876543210", rfl, by decide⟩

/-! ## Claim C5 — tenure unit conversion -/

/-- C5: the source converts to months with
`t * 12 if "year" in unit.lower() else t`, so the abbreviated year units
`yr`/`yrs` match the tenure pattern but are NOT multiplied by 12: on
`"5 yrs"` the parser returns 5, not the 60 the claim requires. -/
theorem tenure_yr_unit_not_scaled :
    (parse_amount_and_tenure "5 yrs").2 = some 5 ∧
    (parse_amount_and_tenure "5 yrs").2 ≠ some 60 := by
  decide

/-! ## Claim C9 — unknown customer short-circuit -/

/-- C9: an unknown customer id yields a single system-role error reply, no
sanction link, and the session store returned is exactly the one passed in
(the short-circuit happens before the session `setdefault`). -/
theorem unknown_customer_no_mutation (env : Env) (sessions : String → Option Session)
    (req : ChatRequest) (h : env.customers req.customerId = none) :
    master_chat env sessions req =
      ⟨[⟨"system", notFoundText req.customerId⟩], none, sessions⟩ := by
  unfold master_chat
  rw [h]

/-- Witness for C9 at a concrete request against an empty customer map. -/
theorem unknown_customer_no_mutation_witness :
    master_chat envUnknown noSessions ⟨"s9", "CX", "hello", none⟩ =
      ⟨[⟨"system", notFoundText "CX"⟩], none, noSessions⟩ :=
  unknown_customer_no_mutation envUnknown noSessions ⟨"s9", "CX", "hello", none⟩ rfl

/-! ## Claim C10 — empty message resets to SALES -/

/-- C10: for a known customer, a turn whose message strips to empty sets the
stored session's stage to SALES (whatever it was before, APPROVED and
REJECTED included), keeps its customerId, leaves other sessions untouched,
and replies with the greeting, the two offers and the amount/tenure
prompt. -/
theorem empty_message_resets_to_sales (env : Env) (sessions : String → Option Session)
    (req : ChatRequest) (c : Customer) (s : Session)
    (hc : env.customers req.customerId = some c)
    (hs : sessions req.sessionId = some s)
    (hm : pyStrip req.message.data = []) :
    (master_chat env sessions req).replies = greetingReplies c ∧
    (master_chat env sessions req).sessions req.sessionId =
      some ⟨s.customerId, "SALES"⟩ ∧
    ∀ k, k ≠ req.sessionId → (master_chat env sessions req).sessions k = sessions k := by
  rw [master_chat_greeting env sessions req c hc hm]
  refine ⟨rfl, ?_, ?_⟩
  · rw [hs]
    exact sessionPut_same ..
  · intro k hk
    rw [hs]
    exact sessionPut_other _ _ _ _ hk

/-- Witness for C10: a whitespace-only message on a session already at stage
APPROVED. -/
theorem empty_message_resets_to_sales_witness :
    (master_chat env0 sessApproved ⟨"s1", "C001", "   ", none⟩).replies =
      greetingReplies cGood ∧
    (master_chat env0 sessApproved ⟨"s1", "C001", "   ", none⟩).sessions "s1" =
      some ⟨"C001", "SALES"⟩ :=
  ⟨(empty_message_resets_to_sales env0 sessApproved ⟨"s1", "C001", "   ", none⟩ cGood
      ⟨"C001", "APPROVED"⟩ rfl rfl (by decide)).1,
   (empty_message_resets_to_sales env0 sessApproved ⟨"s1", "C001", "   ", none⟩ cGood
      ⟨"C001", "APPROVED"⟩ rfl rfl (by decide)).2.1⟩

/-! ## Claim C6 — decline-intent phrases -/

/-- C6 counterexample: the handler has no decline-intent handling and no
CLOSED stage; the message "not interested" on a session at stage SALES
leaves the stage SALES (not CLOSED) and returns the generic guidance
reply. -/
theorem decline_stays_open_counterexample :
    (master_chat env0 sessSales ⟨"s1", "C001", "not interested", none⟩).sessions "s1" =
      some ⟨"C001", "SALES"⟩ ∧
    ((master_chat env0 sessSales ⟨"s1", "C001", "not interested", none⟩).sessions "s1").map
        Session.stage ≠ some "CLOSED" ∧
    (master_chat env0 sessSales ⟨"s1", "C001", "not interested", none⟩).replies =
      [⟨"master", fallbackText cGood⟩] := by
  decide

/-- C6 amended: a decline phrase ("no" / "not interested") is not specially
handled: from any stored stage it falls through to the generic guidance
reply and the session (and every other session) is unchanged; no CLOSED
stage exists and there is no pendingApproval to mutate. -/
theorem decline_message_falls_through (env : Env) (sessions : String → Option Session)
    (sid cid msg : String) (fid : Option String) (c : Customer) (s : Session)
    (hc : env.customers cid = some c)
    (hs : sessions sid = some s)
    (hm : msg = "no" ∨ msg = "not interested") :
    (master_chat env sessions ⟨sid, cid, msg, fid⟩).replies =
      [⟨"master", fallbackText c⟩] ∧
    (master_chat env sessions ⟨sid, cid, msg, fid⟩).sessions sid = some s ∧
    ∀ k, k ≠ sid → (master_chat env sessions ⟨sid, cid, msg, fid⟩).sessions k = sessions k := by
  have key : master_chat env sessions ⟨sid, cid, msg, fid⟩ =
      ⟨[⟨"master", fallbackText c⟩], none, sessionPut sessions sid ((sessions sid).getD ⟨cid, "INIT"⟩)⟩ := by
    rcases hm with rfl | rfl
    · exact master_chat_fallthrough env sessions ⟨sid, cid, "no", fid⟩ c hc
        (show pyStrip ("no" : String).data ≠ [] by decide)
        (show kycRegex (pyStrip ("no" : String).data) = false by decide)
        (show salaryRegex (pyStrip ("no" : String).data) = false by decide)
        (show (truthyNum (parseCore (pyStrip ("no" : String).data)).1 &&
              truthyNum (parseCore (pyStrip ("no" : String).data)).2) = false by decide)
    · exact master_chat_fallthrough env sessions ⟨sid, cid, "not interested", fid⟩ c hc
        (show pyStrip ("not interested" : String).data ≠ [] by decide)
        (show kycRegex (pyStrip ("not interested" : String).data) = false by decide)
        (show salaryRegex (pyStrip ("not interested" : String).data) = false by decide)
        (show (truthyNum (parseCore (pyStrip ("not interested" : String).data)).1 &&
              truthyNum (parseCore (pyStrip ("not interested" : String).data)).2) = false by decide)
  rw [key]
  refine ⟨rfl, ?_, ?_⟩
  · rw [hs]
    exact sessionPut_same ..
  · intro k hk
    rw [hs]
    exact sessionPut_other _ _ _ _ hk

/-! ## EMI arithmetic — claims C7 and C8 -/

lemma geomS_succ (v : ℚ) (n : ℕ) : geomS v (n + 1) = geomS v n + v ^ n := by
  simp [geomS, Finset.sum_range_succ]

lemma geomS_one_eq (n : ℕ) : geomS 1 n = n := by
  simp [geomS]

lemma geomS_pos (v : ℚ) (hv : 1 ≤ v) (n : ℕ) (hn : 0 < n) : 0 < geomS v n := by
  apply Finset.sum_pos
  · intro k _
    exact pow_pos (lt_of_lt_of_le one_pos hv) k
  · exact Finset.nonempty_range_iff.mpr hn.ne'

lemma geomS_nonneg (v : ℚ) (hv : 0 ≤ v) (n : ℕ) : 0 ≤ geomS v n :=
  Finset.sum_nonneg (fun k _ => pow_nonneg hv k)

lemma geomS_mul_sub (v : ℚ) (n : ℕ) : (v - 1) * geomS v n = v ^ n - 1 := by
  induction n with
  | zero => simp [geomS]
  | succ k ih =>
    rw [geomS_succ, mul_add, ih, pow_succ]
    ring

lemma q2_mono (x y : ℚ) (hx : 0 ≤ x) (hxy : x ≤ y) : q2 x ≤ q2 y := by
  have hy : 0 ≤ y := hx.trans hxy
  unfold q2
  rw [if_pos hx, if_pos hy]
  have hf : (⌊100 * x + 1 / 2⌋ : ℤ) ≤ ⌊100 * y + 1 / 2⌋ :=
    Int.floor_le_floor (by linarith)
  have hq : ((⌊100 * x + 1 / 2⌋ : ℤ) : ℚ) ≤ ((⌊100 * y + 1 / 2⌋ : ℤ) : ℚ) := by
    exact_mod_cast hf
  linarith

lemma emiCore_nonneg (P v : ℚ) (n : ℕ) (hP : 0 ≤ P) (hv : 0 ≤ v) :
    0 ≤ emiCore P v n :=
  div_nonneg (mul_nonneg hP (pow_nonneg hv n)) (geomS_nonneg v hv n)

lemma emiCore_mono_v (P : ℚ) (n : ℕ) (hP : 0 ≤ P) (hn : 0 < n) (v w : ℚ)
    (hv : 1 ≤ v) (hvw : v ≤ w) : emiCore P v n ≤ emiCore P w n := by
  have hw : 1 ≤ w := hv.trans hvw
  have hgv := geomS_pos v hv n hn
  have hgw := geomS_pos w hw n hn
  unfold emiCore
  rw [div_le_div_iff hgv hgw]
  have h0v : (0 : ℚ) ≤ v := by linarith
  have key : v ^ n * geomS w n ≤ w ^ n * geomS v n := by
    unfold geomS
    rw [Finset.mul_sum, Finset.mul_sum]
    apply Finset.sum_le_sum
    intro k hk
    have hkn : k ≤ n := (Finset.mem_range.mp hk).le
    have hsv : v ^ n = v ^ k * v ^ (n - k) := by
      rw [← pow_add, Nat.add_sub_cancel' hkn]
    have hsw : w ^ n = w ^ k * w ^ (n - k) := by
      rw [← pow_add, Nat.add_sub_cancel' hkn]
    rw [hsv, hsw]
    have hle : v ^ (n - k) ≤ w ^ (n - k) := pow_le_pow_left h0v hvw (n - k)
    have e1 : v ^ k * v ^ (n - k) * w ^ k = v ^ k * w ^ k * v ^ (n - k) := by ring
    have e2 : w ^ k * w ^ (n - k) * v ^ k = v ^ k * w ^ k * w ^ (n - k) := by ring
    rw [e1, e2]
    exact mul_le_mul_of_nonneg_left hle
      (mul_nonneg (pow_nonneg h0v k) (pow_nonneg (by linarith) k))
  calc P * v ^ n * geomS w n = P * (v ^ n * geomS w n) := by ring
    _ ≤ P * (w ^ n * geomS v n) := mul_le_mul_of_nonneg_left key hP
    _ = P * w ^ n * geomS v n := by ring

lemma emiCore_anti_succ (P v : ℚ) (n : ℕ) (hP : 0 ≤ P) (hv : 1 ≤ v) (hn : 0 < n) :
    emiCore P v (n + 1) ≤ emiCore P v n := by
  have hg := geomS_pos v hv n hn
  have hg1 := geomS_pos v hv (n + 1) (Nat.succ_pos n)
  unfold emiCore
  rw [div_le_div_iff hg1 hg]
  rw [geomS_succ, pow_succ]
  have h0v : (0 : ℚ) ≤ v := by linarith
  have hvn : (0 : ℚ) ≤ v ^ n := pow_nonneg h0v n
  have hmul := geomS_mul_sub v n
  have e1 : P * (v ^ n * v) * geomS v n =
      P * v ^ n * geomS v n + P * v ^ n * ((v - 1) * geomS v n) := by ring
  rw [e1, hmul]
  have hPn : (0 : ℚ) ≤ P * v ^ n := mul_nonneg hP hvn
  nlinarith

lemma emiCore_anti (P v : ℚ) (hP : 0 ≤ P) (hv : 1 ≤ v) (n1 n2 : ℕ)
    (h1 : 0 < n1) (h12 : n1 ≤ n2) : emiCore P v n2 ≤ emiCore P v n1 := by
  induction n2, h12 using Nat.le_induction with
  | base => exact le_refl _
  | succ n hn ih =>
    exact (emiCore_anti_succ P v n hP hv (lt_of_lt_of_le h1 hn)).trans ih

lemma rate_div_eq (rate : ℚ) : rate / 12 / 100 = rate / 1200 := by ring

lemma rate_div_eq_zero_iff (rate : ℚ) : rate / 12 / 100 = 0 ↔ rate = 0 := by
  rw [rate_div_eq]
  constructor
  · intro h
    rcases div_eq_zero_iff.mp h with h' | h'
    · exact h'
    · norm_num at h'
  · intro h
    rw [h]
    norm_num

lemma compute_emi_eq_core (P rate : ℚ) (n : ℕ) (hrate : 0 < rate) (hn : 0 < n) :
    compute_emi P rate n = q2 (emiCore P (1 + rate / 1200) n) := by
  have hr0 : ¬(rate / 12 / 100 = 0) := by
    rw [rate_div_eq_zero_iff]
    exact ne_of_gt hrate
  unfold compute_emi
  rw [if_neg hr0, rate_div_eq]
  congr 1
  have hrp : (0 : ℚ) < rate / 1200 := by positivity
  have hv1 : (1 : ℚ) ≤ 1 + rate / 1200 := by linarith
  have hg : 0 < geomS (1 + rate / 1200) n := geomS_pos _ hv1 n hn
  have key : (1 + rate / 1200) ^ n - 1 = (rate / 1200) * geomS (1 + rate / 1200) n := by
    have h := geomS_mul_sub (1 + rate / 1200) n
    have e : (1 + rate / 1200 - 1) = rate / 1200 := by ring
    rw [e] at h
    linarith
  rw [key]
  unfold emiCore
  rw [div_eq_div_iff (by positivity) (ne_of_gt hg)]
  ring

lemma compute_emi_zero_eq_core (P : ℚ) (n : ℕ) :
    compute_emi P 0 n = q2 (emiCore P 1 n) := by
  unfold compute_emi
  rw [if_pos (by norm_num)]
  congr 1
  unfold emiCore
  rw [one_pow, geomS_one_eq, mul_one]

/-- C7: over nonnegative rates, `compute_emi` is non-decreasing in the
annual rate for a fixed positive principal and positive tenure, and for a
fixed positive principal and strictly positive rate it is non-increasing as
the tenure in months grows. -/
theorem compute_emi_monotone :
    (∀ (P r1 r2 : ℚ) (n : ℕ), 0 < P → 0 < n → 0 ≤ r1 → r1 ≤ r2 →
      compute_emi P r1 n ≤ compute_emi P r2 n) ∧
    (∀ (P r : ℚ) (n1 n2 : ℕ), 0 < P → 0 < r → 0 < n1 → n1 ≤ n2 →
      compute_emi P r n2 ≤ compute_emi P r n1) := by
  constructor
  · intro P r1 r2 n hP hn h1 h12
    rcases eq_or_lt_of_le h1 with h10 | h1pos
    · rcases eq_or_lt_of_le (h10 ▸ h12 : (0 : ℚ) ≤ r2) with h20 | h2pos
      · rw [← h10, ← h20]
      · rw [← h10, compute_emi_zero_eq_core P n, compute_emi_eq_core P r2 n h2pos hn]
        apply q2_mono
        · exact emiCore_nonneg P 1 n hP.le (by norm_num)
        · exact emiCore_mono_v P n hP.le hn 1 (1 + r2 / 1200) le_rfl (by linarith)
    · have h2pos : (0 : ℚ) < r2 := lt_of_lt_of_le h1pos h12
      rw [compute_emi_eq_core P r1 n h1pos hn, compute_emi_eq_core P r2 n h2pos hn]
      apply q2_mono
      · exact emiCore_nonneg P (1 + r1 / 1200) n hP.le (by linarith)
      · exact emiCore_mono_v P n hP.le hn (1 + r1 / 1200) (1 + r2 / 1200)
          (by linarith) (by linarith)
  · intro P r n1 n2 hP hr h1 h12
    have h2 : 0 < n2 := lt_of_lt_of_le h1 h12
    rw [compute_emi_eq_core P r n1 hr h1, compute_emi_eq_core P r n2 hr h2]
    have hrp : (0 : ℚ) < r / 1200 := by positivity
    apply q2_mono
    · exact emiCore_nonneg P (1 + r / 1200) n2 hP.le (by linarith)
    · exact emiCore_anti P (1 + r / 1200) hP.le (by linarith) n1 n2 h1 h12

/-- Witness for C7 at concrete principals, rates and tenures. -/
theorem compute_emi_monotone_witness :
    compute_emi 100000 (13.5 : ℚ) 12 ≤ compute_emi 100000 (14.5 : ℚ) 12 ∧
    compute_emi 100000 (13.5 : ℚ) 24 ≤ compute_emi 100000 (13.5 : ℚ) 12 :=
  ⟨compute_emi_monotone.1 100000 (13.5 : ℚ) (14.5 : ℚ) 12 (by norm_num) (by norm_num)
      (by norm_num) (by norm_num),
   compute_emi_monotone.2 100000 (13.5 : ℚ) 12 24 (by norm_num) (by norm_num)
      (by norm_num) (by norm_num)⟩

/-- C8: at annual rate 0, `compute_emi` is the straight division
`principal / months` rounded to two fractional digits half-up (`q2`); in
particular `compute_emi 120000 0 12` is exactly 10000.00. -/
theorem compute_emi_zero_rate :
    (∀ (P : ℚ) (n : ℕ), 0 < P → 0 < n → compute_emi P 0 n = q2 (P / (n : ℚ))) ∧
    compute_emi 120000 0 12 = 10000 := by
  constructor
  · intro P n hP hn
    unfold compute_emi
    rw [if_pos (by norm_num)]
  · unfold compute_emi
    rw [if_pos (by norm_num)]
    unfold q2
    norm_num

/-- Witness for C8's universal part at the pinned zero-rate input. -/
theorem compute_emi_zero_rate_witness :
    compute_emi 120000 0 12 = q2 (120000 / (12 : ℚ)) :=
  compute_emi_zero_rate.1 120000 12 (by norm_num) (by norm_num)

/-! ## Claims C2 and C3 — approval flow -/

lemma put_stage_eq (sessions : String → Option Session) (sid : String) (x : Session) :
    ((sessionPut sessions sid x) sid).map Session.stage = some x.stage := by
  simp [sessionPut]

lemma preserved_stage_contra (sessions : String → Option Session) (sid cid : String)
    (hold : (sessions sid).map Session.stage ≠ some "APPROVED")
    (hnew : ((sessionPut sessions sid ((sessions sid).getD ⟨cid, "INIT"⟩)) sid).map
        Session.stage = some "APPROVED") : False := by
  cases hss : sessions sid with
  | none =>
    rw [hss] at hnew
    rw [put_stage_eq] at hnew
    exact absurd (Option.some.inj hnew)
      (show ¬(("INIT" : String) = "APPROVED") by decide)
  | some s =>
    apply hold
    rw [hss]
    rw [hss, put_stage_eq] at hnew
    simpa using hnew

/-- C2 counterexample: starting from an empty session store — so the session
is created at stage INIT within the turn — a single chat turn carrying an
in-limit loan request ends with the stored session at stage APPROVED; no
state with a verified-KYC stage ever occurs in the trace. -/
theorem approved_without_kyc_counterexample :
    noSessions "s1" = none ∧
    (master_chat env0 noSessions approveReq).sessions "s1" =
      some ⟨"C001", "APPROVED"⟩ := by
  decide

/-- C2 amended: a stored session newly reaches stage APPROVED only through a
turn in which the parser extracted a (truthy) amount and tenure and the
underwriting engine returned an Approve decision, in which case the sanction
artifact is emitted in that same turn; no KYC stage is required. -/
theorem approved_only_via_approve_decision (env : Env) (sessions : String → Option Session)
    (req : ChatRequest)
    (hnew : ((master_chat env sessions req).sessions req.sessionId).map Session.stage =
      some "APPROVED")
    (hold : (sessions req.sessionId).map Session.stage ≠ some "APPROVED") :
    ∃ c a t amt emi rate,
      env.customers req.customerId = some c ∧
      parseCore (pyStrip req.message.data) = (some a, some t) ∧ a ≠ 0 ∧ t ≠ 0 ∧
      evaluate_loan c (a : ℤ) t (get_credit_score env.customers req.customerId)
        (filePathOf env req.fileId) = .Approve amt emi rate ∧
      (master_chat env sessions req).sanctionUrl.isSome = true := by
  cases hc : env.customers req.customerId with
  | none =>
    exfalso
    apply hold
    rw [← hnew]
    unfold master_chat
    rw [hc]
  | some c =>
  by_cases h1 : pyStrip req.message.data = []
  · exfalso
    rw [master_chat_greeting env sessions req c hc h1] at hnew
    rw [show (⟨greetingReplies c, none, sessionPut sessions req.sessionId
        ⟨((sessions req.sessionId).getD ⟨req.customerId, "INIT"⟩).customerId, "SALES"⟩⟩ :
        ChatResult).sessions = sessionPut sessions req.sessionId
        ⟨((sessions req.sessionId).getD ⟨req.customerId, "INIT"⟩).customerId, "SALES"⟩ from rfl,
      put_stage_eq] at hnew
    exact absurd (Option.some.inj hnew) (show ¬(("SALES" : String) = "APPROVED") by decide)
  · cases h2 : kycRegex (pyStrip req.message.data) with
    | true =>
      exfalso
      rw [master_chat_kyc_hit env sessions req c hc h1 h2] at hnew
      cases hv : (verify_kyc c).verified with
      | true =>
        rw [if_pos hv] at hnew
        rw [show (⟨[⟨"verification", "KYC verified successfully."⟩], none,
            sessionPut sessions req.sessionId
              ⟨((sessions req.sessionId).getD ⟨req.customerId, "INIT"⟩).customerId,
                "KYC_DONE"⟩⟩ : ChatResult).sessions = sessionPut sessions req.sessionId
              ⟨((sessions req.sessionId).getD ⟨req.customerId, "INIT"⟩).customerId,
                "KYC_DONE"⟩ from rfl, put_stage_eq] at hnew
        exact absurd (Option.some.inj hnew) (show ¬(("KYC_DONE" : String) = "APPROVED") by decide)
      | false =>
        rw [if_neg (by simp [hv])] at hnew
        exact preserved_stage_contra sessions req.sessionId req.customerId hold hnew
    | false =>
      cases h3 : salaryRegex (pyStrip req.message.data) with
      | true =>
        exfalso
        rw [master_chat_salary_hit env sessions req c hc h1 h2 h3] at hnew
        rw [show (⟨[⟨"master", uploadPromptText⟩], none, sessionPut sessions req.sessionId
            ⟨((sessions req.sessionId).getD ⟨req.customerId, "INIT"⟩).customerId,
              "DOC_PENDING"⟩⟩ : ChatResult).sessions = sessionPut sessions req.sessionId
            ⟨((sessions req.sessionId).getD ⟨req.customerId, "INIT"⟩).customerId,
              "DOC_PENDING"⟩ from rfl, put_stage_eq] at hnew
        exact absurd (Option.some.inj hnew) (show ¬(("DOC_PENDING" : String) = "APPROVED") by decide)
      | false =>
        cases h4 : (truthyNum (parseCore (pyStrip req.message.data)).1 &&
            truthyNum (parseCore (pyStrip req.message.data)).2) with
        | false =>
          exfalso
          rw [master_chat_fallthrough env sessions req c hc h1 h2 h3 h4] at hnew
          exact preserved_stage_contra sessions req.sessionId req.customerId hold hnew
        | true =>
          obtain ⟨hA, hB⟩ : truthyNum (parseCore (pyStrip req.message.data)).1 = true ∧
              truthyNum (parseCore (pyStrip req.message.data)).2 = true := by simpa using h4
          obtain ⟨a, ha1, ha0⟩ : ∃ a, (parseCore (pyStrip req.message.data)).1 = some a ∧
              a ≠ 0 := by
            cases hx : (parseCore (pyStrip req.message.data)).1 with
            | none => rw [hx] at hA; exact absurd hA (by decide)
            | some a =>
              refine ⟨a, rfl, ?_⟩
              rw [hx] at hA
              simpa [truthyNum] using hA
          obtain ⟨t, hb1, hb0⟩ : ∃ t, (parseCore (pyStrip req.message.data)).2 = some t ∧
              t ≠ 0 := by
            cases hx : (parseCore (pyStrip req.message.data)).2 with
            | none => rw [hx] at hB; exact absurd hB (by decide)
            | some t =>
              refine ⟨t, rfl, ?_⟩
              rw [hx] at hB
              simpa [truthyNum] using hB
          have key : master_chat env sessions req = underwritingTurn env sessions req c a t := by
            have h := master_chat_uw env sessions req c hc h1 h2 h3 h4
            rw [ha1, hb1] at h
            simpa using h
          cases hdec : evaluate_loan c (a : ℤ) t (get_credit_score env.customers req.customerId)
              (filePathOf env req.fileId) with
          | Reject r =>
            exfalso
            rw [key, underwritingTurn_reject env sessions req c a t r hdec] at hnew
            rw [show (⟨[⟨"underwriting", r⟩], none, sessionPut sessions req.sessionId
                ⟨((sessions req.sessionId).getD ⟨req.customerId, "INIT"⟩).customerId,
                  "REJECTED"⟩⟩ : ChatResult).sessions = sessionPut sessions req.sessionId
                ⟨((sessions req.sessionId).getD ⟨req.customerId, "INIT"⟩).customerId,
                  "REJECTED"⟩ from rfl, put_stage_eq] at hnew
            exact absurd (Option.some.inj hnew) (show ¬(("REJECTED" : String) = "APPROVED") by decide)
          | ReqDoc r =>
            exfalso
            rw [key, underwritingTurn_reqdoc env sessions req c a t r hdec] at hnew
            rw [show (⟨[⟨"underwriting", r⟩], none, sessionPut sessions req.sessionId
                ⟨((sessions req.sessionId).getD ⟨req.customerId, "INIT"⟩).customerId,
                  "DOC_PENDING"⟩⟩ : ChatResult).sessions = sessionPut sessions req.sessionId
                ⟨((sessions req.sessionId).getD ⟨req.customerId, "INIT"⟩).customerId,
                  "DOC_PENDING"⟩ from rfl, put_stage_eq] at hnew
            exact absurd (Option.some.inj hnew) (show ¬(("DOC_PENDING" : String) = "APPROVED") by decide)
          | Approve amt emi rate =>
            refine ⟨c, a, t, amt, emi, rate, rfl, ?_, ha0, hb0, hdec, ?_⟩
            · exact Prod.ext_iff.mpr ⟨by rw [ha1], by rw [hb1]⟩
            · rw [key, underwritingTurn_approve env sessions req c a t amt emi rate hdec]
              rfl

/-- Witness for C2's amended theorem: the concrete one-turn approval trace. -/
theorem approved_only_via_approve_decision_witness :
    ∃ c a t amt emi rate,
      env0.customers approveReq.customerId = some c ∧
      parseCore (pyStrip approveReq.message.data) = (some a, some t) ∧ a ≠ 0 ∧ t ≠ 0 ∧
      evaluate_loan c (a : ℤ) t (get_credit_score env0.customers approveReq.customerId)
        (filePathOf env0 approveReq.fileId) = .Approve amt emi rate ∧
      (master_chat env0 noSessions approveReq).sanctionUrl.isSome = true :=
  approved_only_via_approve_decision env0 noSessions approveReq (by decide) (by decide)

/-- C3 counterexample: a turn taken in stage UNDERWRITING whose request the
engine approves moves the session directly to APPROVED — not to a
CONSENT_PENDING stage — and the sanction artifact is generated in that very
turn, not on a later affirmative reply. -/
theorem consent_stage_counterexample :
    ((master_chat env0 sessUnderwriting approveReq).sessions "s1").map Session.stage =
      some "APPROVED" ∧
    ((master_chat env0 sessUnderwriting approveReq).sessions "s1").map Session.stage ≠
      some "CONSENT_PENDING" ∧
    (master_chat env0 sessUnderwriting approveReq).sanctionUrl.isSome = true := by
  decide

/-- C3 amended: when the underwriting engine returns Approve for a turn, the
session transitions immediately to APPROVED and the sanction artifact link
is emitted in the same turn; there is no CONSENT_PENDING stage and no
pendingApproval field. -/
theorem approve_decision_immediate_sanction (env : Env) (sessions : String → Option Session)
    (req : ChatRequest) (c : Customer) (s : Session) (a t : ℕ) (amt : ℤ) (emi rate : ℚ)
    (hc : env.customers req.customerId = some c)
    (hs : sessions req.sessionId = some s)
    (h1 : pyStrip req.message.data ≠ [])
    (h2 : kycRegex (pyStrip req.message.data) = false)
    (h3 : salaryRegex (pyStrip req.message.data) = false)
    (hp : parseCore (pyStrip req.message.data) = (some a, some t))
    (ha : a ≠ 0) (ht : t ≠ 0)
    (hd : evaluate_loan c (a : ℤ) t (get_credit_score env.customers req.customerId)
            (filePathOf env req.fileId) = .Approve amt emi rate) :
    (master_chat env sessions req).sessions req.sessionId =
      some ⟨s.customerId, "APPROVED"⟩ ∧
    (master_chat env sessions req).sanctionUrl =
      some ("/api/sanction/" ++ generate_sanction c amt t rate emi) := by
  have h4 : (truthyNum (parseCore (pyStrip req.message.data)).1 &&
             truthyNum (parseCore (pyStrip req.message.data)).2) = true := by
    rw [hp]
    simp [truthyNum, ha, ht]
  have key : master_chat env sessions req = underwritingTurn env sessions req c a t := by
    have h := master_chat_uw env sessions req c hc h1 h2 h3 h4
    rw [hp] at h
    simpa using h
  rw [key, underwritingTurn_approve env sessions req c a t amt emi rate hd]
  refine ⟨?_, rfl⟩
  rw [show (⟨[⟨"underwriting", approveText amt t⟩,
      ⟨"sanction", "Sanction letter generated successfully."⟩],
      some ("/api/sanction/" ++ generate_sanction c amt t rate emi),
      sessionPut sessions req.sessionId
        ⟨((sessions req.sessionId).getD ⟨req.customerId, "INIT"⟩).customerId,
          "APPROVED"⟩⟩ : ChatResult).sessions = sessionPut sessions req.sessionId
        ⟨((sessions req.sessionId).getD ⟨req.customerId, "INIT"⟩).customerId,
          "APPROVED"⟩ from rfl]
  rw [hs]
  exact sessionPut_same ..

/-- Witness for C3's amended theorem at the concrete approval turn. -/
theorem approve_decision_immediate_sanction_witness :
    (master_chat env0 sessSales approveReq).sessions "s1" =
      some ⟨"C001", "APPROVED"⟩ ∧
    (master_chat env0 sessSales approveReq).sanctionUrl =
      some ("/api/sanction/" ++ generate_sanction cGood 150000 12 (13.5 : ℚ)
        (compute_emi (150000 : ℚ) (13.5 : ℚ) 12)) :=
  approve_decision_immediate_sanction env0 sessSales approveReq cGood ⟨"C001", "SALES"⟩
    150000 12 150000 (compute_emi (150000 : ℚ) (13.5 : ℚ) 12) (13.5 : ℚ)
    rfl rfl (by decide) (by decide) (by decide) (by decide) (by decide) (by decide)
    (by
      have hcs : get_credit_score env0.customers approveReq.customerId = 750 := by decide
      rw [hcs]
      unfold evaluate_loan
      rw [if_neg (by decide), if_pos (by decide)]
      norm_cast)

/-- Witness for C6's amended theorem: "not interested" on a session at
stage SALES. -/
theorem decline_message_falls_through_witness :
    (master_chat env0 sessSales ⟨"s1", "C001", "no", none⟩).replies =
      [⟨"master", fallbackText cGood⟩] ∧
    (master_chat env0 sessSales ⟨"s1", "C001", "no", none⟩).sessions "s1" =
      some ⟨"C001", "SALES"⟩ :=
  ⟨(decline_message_falls_through env0 sessSales "s1" "C001" "no" none cGood
      ⟨"C001", "SALES"⟩ rfl rfl (Or.inl rfl)).1,
   (decline_message_falls_through env0 sessSales "s1" "C001" "no" none cGood
      ⟨"C001", "SALES"⟩ rfl rfl (Or.inl rfl)).2.1⟩

end LoanAgent
